import Mathlib

/-!
Verification of the PUGG matchmaking and session engine.

The definitions below are a shallow embedding of the backend source:
the tic-tac-toe rule code inlined in `backend/index.js` (legacy move
endpoint, `checkWinner`), the connect-four rule engine
(`backend/games/connect-four.js`), the redis-backed matchmaking in
`backend/games/tictactoe.js` / `base-game.js`, and the result-screen
lifecycle handlers in `backend/index.js`.  Redis is modelled as
association lists keyed by the exact key strings the code uses; JS
`null` is `Option.none`; out-of-range JS array reads (`undefined`) are
modelled with `List.getD` / `List.get?` as noted at each definition.
-/

namespace PUGG

/-! ## Key-value store primitives (redis GET/SET/DEL on one keyspace) -/

/-- Lookup of a key in an association list (redis GET). -/
def lookupKV {α : Type} : List (String × α) → String → Option α
  | [], _ => none
  | kv :: rest, k => if kv.1 = k then some kv.2 else lookupKV rest k

/-- Removal of every binding of a key (redis DEL). -/
def delKV {α : Type} : List (String × α) → String → List (String × α)
  | [], _ => []
  | kv :: rest, k => if kv.1 = k then delKV rest k else kv :: delKV rest k

/-- Overwriting write of a key (redis SET). -/
def setKV {α : Type} (m : List (String × α)) (k : String) (v : α) : List (String × α) :=
  (k, v) :: delKV m k

/-! ## Tic-tac-toe data model (legacy inline engine in backend/index.js) -/

/-- Board marker, JS strings "X" / "O". -/
inductive Mark
  | X
  | O
deriving DecidableEq, Repr

/-- Value of the `winner` field of the legacy game state:
JS `null` is `none`, "X"/"O"/"draw" are the three constructors. -/
inductive TWinner
  | WX
  | WO
  | WDraw
deriving DecidableEq, Repr

/-- The legacy 3x3 board: a JS array of 9 cells, `null` = `none`. -/
abbrev TBoard := List (Option Mark)

/-- JS read `board[i]`: an out-of-range read gives `undefined`, which is
falsy exactly like `null`, so both are modelled as `none`. -/
def cell (b : TBoard) (i : Nat) : Option Mark := b.getD i none

/-- The `lines` table of `checkWinner` in backend/index.js. -/
def lines : List (Nat × Nat × Nat) :=
  [(0, 1, 2), (3, 4, 5), (6, 7, 8), (0, 3, 6), (1, 4, 7), (2, 5, 8), (0, 4, 8), (2, 4, 6)]

/-- The `for (const [a, b, c] of lines)` loop of `checkWinner`:
`if (board[a] && board[a] === board[b] && board[a] === board[c]) return board[a]`. -/
def scanLines (b : TBoard) : List (Nat × Nat × Nat) → Option Mark
  | [] => none
  | t :: rest =>
    match cell b t.1 with
    | some p => if cell b t.2.1 = some p ∧ cell b t.2.2 = some p then some p else scanLines b rest
    | none => scanLines b rest

/-- `checkWinner` from backend/index.js. -/
def checkWinner (b : TBoard) : Option Mark := scanLines b lines

/-- The draw computation of the legacy move endpoint:
`const isDraw = !winner && newBoard.every((cell) => cell !== null)`. -/
def isDrawCalc (b : TBoard) : Bool := (checkWinner b).isNone && b.all (fun c => c.isSome)

/-- Spec-side predicate, written from the spec's words, independent of
`checkWinner`: some row, column, or diagonal of length 3 is uniformly
occupied by the marker `p`. -/
def winningLine (b : TBoard) (p : Mark) : Prop :=
  (cell b 0 = some p ∧ cell b 1 = some p ∧ cell b 2 = some p) ∨
  (cell b 3 = some p ∧ cell b 4 = some p ∧ cell b 5 = some p) ∨
  (cell b 6 = some p ∧ cell b 7 = some p ∧ cell b 8 = some p) ∨
  (cell b 0 = some p ∧ cell b 3 = some p ∧ cell b 6 = some p) ∨
  (cell b 1 = some p ∧ cell b 4 = some p ∧ cell b 7 = some p) ∨
  (cell b 2 = some p ∧ cell b 5 = some p ∧ cell b 8 = some p) ∨
  (cell b 0 = some p ∧ cell b 4 = some p ∧ cell b 8 = some p) ∨
  (cell b 2 = some p ∧ cell b 4 = some p ∧ cell b 6 = some p)

instance : Fintype Mark where
  elems := {Mark.X, Mark.O}
  complete := by intro x; cases x <;> simp

instance (b : TBoard) (p : Mark) : Decidable (winningLine b p) := by
  unfold winningLine; infer_instance

/-- The legacy tic-tac-toe game state stored in each session
(`gameState` of backend/games/tictactoe.js sessions). -/
structure TState where
  board : TBoard
  currentPlayer : Mark
  winner : Option TWinner
  playerX : String
  playerO : String
  moves : Nat
deriving DecidableEq, Repr

/-- The `isCurrentPlayer` computation of the legacy move endpoint. -/
def isCurrentPlayer (gs : TState) (userId : String) : Bool :=
  (decide (gs.currentPlayer = Mark.X) && decide (gs.playerX = userId)) ||
  (decide (gs.currentPlayer = Mark.O) && decide (gs.playerO = userId))

/-- The validation gate of the legacy tic-tac-toe move endpoint
(backend/index.js): `if (!gameState || gameState.board[index] || gameState.winner)`
rejects with "Invalid move", then `if (!isCurrentPlayer)` rejects with
"Not your turn".  `board[index]` out of range is `undefined`, falsy, so
the first test passes for any out-of-range index. -/
def legacyMoveCheck (gs : TState) (userId : String) (idx : Nat) : Option String :=
  if (cell gs.board idx).isSome || gs.winner.isSome then some "Invalid move"
  else if isCurrentPlayer gs userId then none
  else some "Not your turn"

/-- Mark of a winner, as the legacy code stores `checkWinner`'s result
into the `winner` field. -/
def markWinner : Mark → TWinner
  | Mark.X => TWinner.WX
  | Mark.O => TWinner.WO

/-- The move application of the legacy tic-tac-toe endpoint for an
in-range index: copy the board, place the current player's mark, flip
`currentPlayer`, and store `winner || (isDraw ? "draw" : null)` in the
same new state. -/
def legacyApplyMove (gs : TState) (idx : Nat) : TState :=
  let nb := gs.board.set idx (some gs.currentPlayer)
  let w := checkWinner nb
  let dr := w.isNone && nb.all (fun c => c.isSome)
  { gs with
    board := nb
    currentPlayer := if gs.currentPlayer = Mark.X then Mark.O else Mark.X
    winner :=
      match w with
      | some m => some (markWinner m)
      | none => if dr then some TWinner.WDraw else none
    moves := gs.moves + 1 }

/-! ## Connect-four rule engine (backend/games/connect-four.js) -/

/-- A player entry `{userId, username}`. -/
structure C4Player where
  userId : String
  username : String
deriving DecidableEq, Repr

/-- The 6x7 connect-four board: rows of cells, each `null` or a player
index (JS stores `currentPlayer`, a number). -/
abbrev C4Board := List (List (Option Nat))

/-- JS read `board[r][c]` where both `undefined` and `null` behave as
"no piece" for the comparisons `player === board[r][c]` in the window
scans (a number is never equal to either). -/
def c4cell (b : C4Board) (r c : Nat) : Option Nat := (b.getD r []).getD c none

/-- Connect-four game state, `createInitialGameState` shape. -/
structure C4State where
  board : C4Board
  currentPlayer : Nat
  players : List C4Player
  finished : Bool
  winner : Option C4Player
  isDraw : Bool
deriving DecidableEq, Repr

/-- JS `players.findIndex(p => p.userId === userId)`: index of the first
match, `-1` when absent. -/
def playerIndex (ps : List C4Player) (userId : String) : Int :=
  match ps.findIdx? (fun p => p.userId = userId) with
  | some i => (i : Int)
  | none => -1

/-- `ConnectFourGame.validateMove`.  The column is an arbitrary JS
number, so it is an `Int` here.  The full-column test
`board[0][column] !== null` is true for an out-of-range read
(`undefined !== null`), hence the `List.get?` form: only an existing
cell that is `null` passes. -/
def validateMoveC4 (gs : C4State) (userId : String) (column : Int) : Option String :=
  if gs.finished then some "Game is finished"
  else if playerIndex gs.players userId ≠ (gs.currentPlayer : Int) then some "Not your turn"
  else if column < 0 ∨ 7 ≤ column then some "Invalid column"
  else if (gs.board.getD 0 []).get? column.toNat ≠ some none then some "Column is full"
  else none

/-- The drop loop of `ConnectFourGame.makeMove`: the largest row index
in 5..0 whose cell exists and is `null` (an out-of-range read gives
`undefined`, which fails the `=== null` test, so a full or invalid
column drops nowhere and the board is unchanged). -/
def dropRow (b : C4Board) (c : Nat) : Option Nat :=
  [5, 4, 3, 2, 1, 0].find? (fun r => (b.getD r []).get? c == some none)

/-- Writing one cell of the board. -/
def setCellC4 (b : C4Board) (r c : Nat) (v : Nat) : C4Board :=
  b.set r ((b.getD r []).set c (some v))

/-- Board after the drop loop; a negative column index never finds a
`null` cell in JS, so the board is unchanged. -/
def dropPiece (b : C4Board) (column : Int) (p : Nat) : C4Board :=
  if column < 0 then b
  else
    match dropRow b column.toNat with
    | some r => setCellC4 b r column.toNat p
    | none => b

/-- One window of `ConnectFourGame.checkWinner`:
`if (player !== null && player === board[...] && ...) return player`
for a window given as its four cell coordinates. -/
def winAt (b : C4Board) (w : List (Nat × Nat)) : Option Nat :=
  match w with
  | [] => none
  | rc :: rest =>
    match c4cell b rc.1 rc.2 with
    | some p => if rest.all (fun uv => c4cell b uv.1 uv.2 == some p) then some p else none
    | none => none

/-- First winning window, in scan order. -/
def firstWin (b : C4Board) : List (List (Nat × Nat)) → Option Nat
  | [] => none
  | w :: ws =>
    match winAt b w with
    | some p => some p
    | none => firstWin b ws

/-- The four nested scan loops of `ConnectFourGame.checkWinner`, in
source order: horizontal, vertical, down-right diagonal, down-left
diagonal. -/
def c4AllWindows : List (List (Nat × Nat)) :=
  ((List.range 6).flatMap fun r => (List.range 4).map fun c =>
    [(r, c), (r, c + 1), (r, c + 2), (r, c + 3)]) ++
  ((List.range 3).flatMap fun r => (List.range 7).map fun c =>
    [(r, c), (r + 1, c), (r + 2, c), (r + 3, c)]) ++
  ((List.range 3).flatMap fun r => (List.range 4).map fun c =>
    [(r, c), (r + 1, c + 1), (r + 2, c + 2), (r + 3, c + 3)]) ++
  ((List.range 3).flatMap fun r => (List.range 4).map fun c =>
    [(r, c + 3), (r + 1, c + 2), (r + 2, c + 1), (r + 3, c)])

/-- `ConnectFourGame.checkWinner`: player index of the first winning
window, else `null`. -/
def checkWinnerC4 (b : C4Board) : Option Nat := firstWin b c4AllWindows

/-- Result record of `checkGameEnd`. -/
structure C4End where
  finished : Bool
  winner : Option C4Player
  isDraw : Bool
deriving DecidableEq, Repr

/-- `ConnectFourGame.checkGameEnd`: winner lookup `players[winner]`,
then draw when the top row is full. -/
def checkGameEndC4 (gs : C4State) : C4End :=
  match checkWinnerC4 gs.board with
  | some w => ⟨true, gs.players.get? w, false⟩
  | none =>
    if (gs.board.getD 0 []).all (fun c => c.isSome) then ⟨true, none, true⟩
    else ⟨false, none, false⟩

/-- `ConnectFourGame.makeMove`: deep-copy the state, drop the piece,
then either embed the terminal outcome (leaving `currentPlayer`
untouched) or switch `currentPlayer` to the other player. -/
def makeMoveC4 (gs : C4State) (userId : String) (column : Int) : C4State :=
  let nb := dropPiece gs.board column gs.currentPlayer
  let ge := checkGameEndC4 { gs with board := nb }
  if ge.finished then
    { gs with board := nb, finished := true, winner := ge.winner, isDraw := ge.isDraw }
  else
    { gs with board := nb, currentPlayer := (gs.currentPlayer + 1) % 2 }

/-! ## Server state (redis keyspace and in-process maps of backend/index.js) -/

/-- A queue entry `{userId, username}` as JSON-serialised into the
redis list. -/
structure QEntry where
  userId : String
  username : String
deriving DecidableEq, Repr

/-- A tic-tac-toe session as stored under `tictactoe:session:<roomId>`
by backend/games/tictactoe.js. -/
structure TSession where
  roomId : String
  players : List (String × String)
  createdAt : Nat
  status : String
  gameState : TState
deriving DecidableEq, Repr

/-- The whole mutable state of the tic-tac-toe server: redis lists
keyed `<gameType>:queue`, sessions keyed `<gameType>:session:<roomId>`,
the user index keyed `user:<userId>:session`, and the two in-process
maps `playersOnResultScreen` and `resultScreenTimeouts` (a timer is
modelled by its room id being scheduled). -/
structure SrvState where
  queues : List (String × List QEntry)
  sessions : List (String × TSession)
  userSessions : List (String × String)
  resultScreens : List (String × List String)
  timers : List String
deriving DecidableEq, Repr

/-- Key of the tic-tac-toe matchmaking queue. -/
def tttQueueKey : String := "tictactoe:queue"

/-- Session key `tictactoe:session:<roomId>`. -/
def tttSessKey (roomId : String) : String := "tictactoe:session:" ++ roomId

/-- Index key `user:<userId>:session`. -/
def userKey (userId : String) : String := "user:" ++ userId ++ ":session"

/-- Reading a redis list: a missing key is the empty list. -/
def getQueue (s : SrvState) (k : String) : List QEntry := (lookupKV s.queues k).getD []

/-- The queue-removal loop used by the hard reset and by
`cancelMatchmaking`: scan the list and `lRem` the first entry whose
`userId` matches, then break. -/
def removeFirstUser : List QEntry → String → List QEntry
  | [], _ => []
  | e :: rest, userId => if e.userId = userId then rest else e :: removeFirstUser rest userId

/-- Result value of `handleMatchmaking`:
`{matched:true, roomId}` or `{matched:false}`. -/
structure MMResult where
  matched : Bool
  roomId : Option String
deriving DecidableEq, Repr

/-- Enqueue-and-match tail of `handleMatchmaking`
(backend/games/tictactoe.js): `rPush` the caller, then if the queue
holds at least 2 entries pop two, create the session with the first
popped player as X, index both players, and return
`{matched:true, roomId}`; otherwise (or when fewer than two could be
popped) leave the queue and return `{matched:false}`.  The fresh
`roomId` (`Date.now()` and `Math.random` in source) and `Date.now()`
are passed in as `roomId` and `now`. -/
def mmCore (userId username roomId : String) (now : Nat) (s : SrvState) : MMResult × SrvState :=
  let q := getQueue s tttQueueKey ++ [⟨userId, username⟩]
  if 2 ≤ q.length then
    match q with
    | p1 :: p2 :: rest =>
      let gs : TState :=
        { board := List.replicate 9 none, currentPlayer := Mark.X, winner := none,
          playerX := p1.userId, playerO := p2.userId, moves := 0 }
      let sess : TSession :=
        { roomId := roomId, players := [(p1.userId, p1.username), (p2.userId, p2.username)],
          createdAt := now, status := "active", gameState := gs }
      (⟨true, some roomId⟩,
       { s with
          queues := setKV s.queues tttQueueKey rest,
          sessions := setKV s.sessions (tttSessKey roomId) sess,
          userSessions :=
            setKV (setKV s.userSessions (userKey p1.userId) roomId) (userKey p2.userId) roomId })
    | _ => (⟨false, none⟩, { s with queues := setKV s.queues tttQueueKey q })
  else (⟨false, none⟩, { s with queues := setKV s.queues tttQueueKey q })

/-- `handleMatchmaking` of backend/games/tictactoe.js (the revision the
server imports): a HARD RESET first removes the caller's queue entry
and deletes `user:<userId>:session`, then the defensive block re-reads
that just-deleted index entry (so its "return the existing active
session" branch can never fire), and finally the caller is enqueued and
matching is attempted. -/
def handleMatchmaking (userId username roomId : String) (now : Nat) (s : SrvState) :
    MMResult × SrvState :=
  let s1 : SrvState :=
    { s with
        queues := setKV s.queues tttQueueKey (removeFirstUser (getQueue s tttQueueKey) userId),
        userSessions := delKV s.userSessions (userKey userId) }
  match lookupKV s1.userSessions (userKey userId) with
  | none => mmCore userId username roomId now s1
  | some sid =>
    match lookupKV s1.sessions (tttSessKey sid) with
    | some sess =>
      if sess.status = "active" ∧ sess.gameState.winner = none then
        (⟨true, some sid⟩, s1)
      else
        mmCore userId username roomId now
          { s1 with
              sessions := delKV s1.sessions (tttSessKey sid),
              userSessions := delKV s1.userSessions (userKey userId) }
    | none =>
      mmCore userId username roomId now
        { s1 with userSessions := delKV s1.userSessions (userKey userId) }

/-- `BaseGame.cancelMatchmaking`: remove at most one queue entry of the
user, then unconditionally delete the user's index entry. -/
def cancelMatchmaking (gameType userId : String) (s : SrvState) : SrvState :=
  { s with
      queues := setKV s.queues (gameType ++ ":queue")
        (removeFirstUser (getQueue s (gameType ++ ":queue")) userId),
      userSessions := delKV s.userSessions (userKey userId) }

/-- JS `roomId.split('-')`, keeping empty segments. -/
def splitDash : List Char → List (List Char)
  | [] => [[]]
  | c :: rest =>
    match splitDash rest with
    | [] => [[]]
    | seg :: segs => if c = '-' then [] :: seg :: segs else (c :: seg) :: segs

/-- JS `parts.join('-')`. -/
def joinDash : List (List Char) → List Char
  | [] => []
  | seg :: segs => seg ++ segs.foldl (fun acc q => acc ++ '-' :: q) []

/-- The room-id parse of `cleanupResultScreen`:
`roomId.split('-').slice(0, -2).join('-')`. -/
def gameTypeOf (roomId : String) : String :=
  let parts := splitDash roomId.toList
  String.mk (joinDash (parts.take (parts.length - 2)))

/-- The queue purge loop of `cleanupResultScreen`: every entry of
either player is removed. -/
def removeUsersFromQueue (q : List QEntry) (a b : String) : List QEntry :=
  q.filter (fun e => decide (e.userId ≠ a) && decide (e.userId ≠ b))

/-- `cleanupResultScreen(roomId)` of backend/index.js: a no-op when the
room is not tracked; otherwise delete the session (found under the
game type parsed from the room id), both players' index entries and
their stray queue entries, and always clear the tracking entry and
cancel the timer. -/
def cleanupResultScreen (roomId : String) (s : SrvState) : SrvState :=
  match lookupKV s.resultScreens roomId with
  | none => s
  | some _ =>
    let gt := gameTypeOf roomId
    let skey := gt ++ ":session:" ++ roomId
    let s1 :=
      match lookupKV s.sessions skey with
      | none => s
      | some game =>
        let px := game.gameState.playerX
        let po := game.gameState.playerO
        let qkey := gt ++ ":queue"
        { s with
            sessions := delKV s.sessions skey,
            userSessions := delKV (delKV s.userSessions (userKey px)) (userKey po),
            queues := setKV s.queues qkey (removeUsersFromQueue (getQueue s qkey) px po) }
    { s1 with
        resultScreens := delKV s1.resultScreens roomId,
        timers := s1.timers.filter (fun t => decide (t ≠ roomId)) }

/-- Response of the leave-result endpoint. -/
inductive SimpleResp
  | notFound
  | ok
deriving DecidableEq, Repr

/-- `POST /game/:gameType/:roomId/leave-result`: 404 when the room has
no residency entry; otherwise remove the caller from the set, delete
the caller's index entry, and reclaim the room at once when the set
became empty. -/
def leaveResult (roomId userId : String) (s : SrvState) : SimpleResp × SrvState :=
  match lookupKV s.resultScreens roomId with
  | none => (SimpleResp.notFound, s)
  | some set =>
    let set' := set.filter (fun u => decide (u ≠ userId))
    let s1 : SrvState :=
      { s with
          resultScreens := setKV s.resultScreens roomId set',
          userSessions := delKV s.userSessions (userKey userId) }
    if set'.isEmpty then (SimpleResp.ok, cleanupResultScreen roomId s1) else (SimpleResp.ok, s1)

/-- JS `new Set([a, b])` collapses equal members. -/
def mkSet2 {α : Type} [DecidableEq α] (a b : α) : List α := if a = b then [a] else [a, b]

/-- Per-player stat increments computed by `updatePlayerStats`
(backend/index.js); the firestore write itself is an external
collaborator.  Component order: `gamesPlayed`, `wins`, `losses`,
`draws`. -/
structure StatDelta where
  gamesPlayed : Nat
  wins : Nat
  losses : Nat
  draws : Nat
deriving DecidableEq, Repr

/-- The increments `updates[0]` (for playerX) and `updates[1]` (for
playerO) of `updatePlayerStats(game, winner, isDraw, forfeitUserId)`:
the win/loss split from `winner`, then the forfeit override. -/
def updatePlayerStatsCalc (winner : Option TWinner) (isDraw : Bool)
    (forfeitUserId : Option String) (playerX playerO : String) : StatDelta × StatDelta :=
  let u0 : StatDelta := ⟨1, 0, 0, 0⟩
  let u1 : StatDelta := ⟨1, 0, 0, 0⟩
  let base :=
    if isDraw then ({ u0 with draws := 1 }, { u1 with draws := 1 })
    else if winner = some TWinner.WX then ({ u0 with wins := 1 }, { u1 with losses := 1 })
    else if winner = some TWinner.WO then ({ u0 with losses := 1 }, { u1 with wins := 1 })
    else (u0, u1)
  match forfeitUserId with
  | none => base
  | some f =>
    if playerX = f then
      ({ base.1 with losses := 1, wins := 0 }, { base.2 with wins := 1, losses := 0 })
    else if playerO = f then
      ({ base.1 with wins := 1, losses := 0 }, { base.2 with losses := 1, wins := 0 })
    else base

/-- Response of the leave (forfeit) endpoint. -/
inductive LeaveResp
  | notFound
  | alreadyFinished
  | notInGame
  | left (winnerId : String)
deriving DecidableEq, Repr

/-- `POST /game/:gameType/:roomId/leave` (backend/index.js) serving a
session of the tic-tac-toe shape, whose `gameState` carries the
`playerX`/`playerO` fields the handler reads: 404 when the session is
absent; a no-op when `gameState.winner` is already set; otherwise when
`gameState.playerX === userId` or `gameState.playerO === userId` the
other player is declared winner, `status` becomes "finished", the
session is persisted, the stat increments are computed with the caller
as forfeiter, and residency tracking is started if absent; any other
caller gets 400 "User not in this game".  The third component is the
stat update handed to the external store (`none` when none is issued).
The same handler serving a connect-four session is `c4LeaveEndpoint`,
where the two field reads yield `undefined`. -/
def leaveEndpoint (gameType roomId userId : String) (s : SrvState) :
    LeaveResp × SrvState × Option (StatDelta × StatDelta) :=
  match lookupKV s.sessions (gameType ++ ":session:" ++ roomId) with
  | none => (LeaveResp.notFound, s, none)
  | some game =>
    if game.gameState.winner.isSome then (LeaveResp.alreadyFinished, s, none)
    else if game.gameState.playerX = userId ∨ game.gameState.playerO = userId then
      let winnerId :=
        if game.gameState.playerX = userId then game.gameState.playerO else game.gameState.playerX
      let wmark :=
        if game.gameState.playerX = winnerId then TWinner.WX else TWinner.WO
      let game' :=
        { game with status := "finished", gameState := { game.gameState with winner := some wmark } }
      let stats :=
        updatePlayerStatsCalc (some wmark) false (some userId)
          game.gameState.playerX game.gameState.playerO
      let s1 : SrvState :=
        { s with sessions := setKV s.sessions (gameType ++ ":session:" ++ roomId) game' }
      let s2 : SrvState :=
        if (lookupKV s1.resultScreens roomId).isSome then s1
        else
          { s1 with
              resultScreens :=
                setKV s1.resultScreens roomId (mkSet2 game.gameState.playerX game.gameState.playerO),
              timers := roomId :: s1.timers }
      (LeaveResp.left winnerId, s2, some stats)
    else (LeaveResp.notInGame, s, none)

/-! ## Generic move endpoint instantiated at connect-four -/

/-- A connect-four session as created by `BaseGame.createMatch`. -/
structure C4Sess where
  roomId : String
  gameType : String
  players : List C4Player
  gameState : C4State
  status : String
  createdAt : Nat
deriving DecidableEq, Repr

/-- Server state touched by the generic move endpoint when the session
store holds connect-four sessions. -/
structure C4Srv where
  sessions : List (String × C4Sess)
  resultScreens : List (String × List (Option String))
  timers : List String
deriving DecidableEq, Repr

/-- JS property read `gameState.playerX` on a connect-four game state:
the field does not exist, so the read yields `undefined`. -/
def jsPlayerX (_ : C4State) : Option String := none

/-- JS property read `gameState.playerO` on a connect-four game state. -/
def jsPlayerO (_ : C4State) : Option String := none

/-- Response of the move endpoint. -/
inductive MoveResp
  | notFound
  | rejected (reason : String)
  | ok
deriving DecidableEq, Repr

/-- `POST /game/:gameType/:roomId/move` (backend/index.js) dispatched
to the connect-four engine: resolve the session, validate (returning
the engine's reason verbatim on rejection, before anything is written),
otherwise apply the move, run the end check, initialize residency
tracking on a finish, and persist the updated session. -/
def c4MoveEndpoint (gameType roomId userId : String) (column : Int) (s : C4Srv) :
    MoveResp × C4Srv :=
  match lookupKV s.sessions (gameType ++ ":session:" ++ roomId) with
  | none => (MoveResp.notFound, s)
  | some game =>
    match validateMoveC4 game.gameState userId column with
    | some reason => (MoveResp.rejected reason, s)
    | none =>
      let ngs := makeMoveC4 game.gameState userId column
      let ge := checkGameEndC4 ngs
      if ge.finished then
        let game2 := { game with gameState := ngs, status := "finished" }
        let s1 : C4Srv :=
          if (lookupKV s.resultScreens roomId).isSome then s
          else
            { s with
                resultScreens :=
                  setKV s.resultScreens roomId (mkSet2 (jsPlayerX ngs) (jsPlayerO ngs)),
                timers := roomId :: s.timers }
        (MoveResp.ok,
         { s1 with sessions := setKV s1.sessions (gameType ++ ":session:" ++ roomId) game2 })
      else
        (MoveResp.ok,
         { s with
            sessions := setKV s.sessions (gameType ++ ":session:" ++ roomId)
              { game with gameState := ngs } })

/-- `POST /game/:gameType/:roomId/leave` (backend/index.js) serving a
connect-four session.  The handler checks `if (gameState.winner)` (a
player object or `null` on this shape), then tests
`gameState.playerX === userId` and `gameState.playerO === userId` —
but a connect-four game state has no `playerX`/`playerO` fields, so
both reads yield `undefined` (`jsPlayerX`/`jsPlayerO` are `none`) and
neither test can hold for any string caller: the handler always takes
its final `else` and answers 400 "User not in this game" without
touching any state, computing no winner and issuing no stat update.
The forfeit branch guarded by those two tests is unreachable on this
session shape (see `jsPlayer_reads_undefined`), which is why it does
not appear below; its tic-tac-toe instantiation is `leaveEndpoint`. -/
def c4LeaveEndpoint (gameType roomId userId : String) (s : C4Srv) :
    LeaveResp × C4Srv × Option (StatDelta × StatDelta) :=
  match lookupKV s.sessions (gameType ++ ":session:" ++ roomId) with
  | none => (LeaveResp.notFound, s, none)
  | some game =>
    if game.gameState.winner.isSome then (LeaveResp.alreadyFinished, s, none)
    else (LeaveResp.notInGame, s, none)

/-! ## Concrete states used as witnesses and counterexamples -/

/-- Fresh legacy tic-tac-toe game state for players "A" (X) and "B" (O). -/
def ttt0 : TState :=
  { board := List.replicate 9 none, currentPlayer := Mark.X, winner := none,
    playerX := "A", playerO := "B", moves := 0 }

/-- A full 3x3 board with no three-in-a-row line (a draw position). -/
def drawBoard : TBoard :=
  [some Mark.X, some Mark.O, some Mark.X,
   some Mark.X, some Mark.O, some Mark.O,
   some Mark.O, some Mark.X, some Mark.X]

/-- An empty connect-four row. -/
def c4emptyRow : List (Option Nat) := List.replicate 7 none

/-- A connect-four row whose first column holds a piece of player 0. -/
def c4col0Row : List (Option Nat) := some 0 :: List.replicate 6 none

/-- Fresh connect-four state for players "A" and "B". -/
def c4start : C4State :=
  { board := List.replicate 6 c4emptyRow, currentPlayer := 0,
    players := [⟨"A", "a"⟩, ⟨"B", "b"⟩], finished := false, winner := none, isDraw := false }

/-- Connect-four state where player 0 ("A") has three pieces stacked in
column 0 and is to move: dropping in column 0 wins vertically. -/
def c4win : C4State :=
  { board := [c4emptyRow, c4emptyRow, c4emptyRow, c4col0Row, c4col0Row, c4col0Row],
    currentPlayer := 0, players := [⟨"A", "a"⟩, ⟨"B", "b"⟩],
    finished := false, winner := none, isDraw := false }

/-- An active tic-tac-toe session in room "R" between "A" and "B". -/
def sessAB : TSession :=
  { roomId := "R", players := [("A", "alice"), ("B", "bob")], createdAt := 0,
    status := "active", gameState := ttt0 }

/-- Server state where "A" and "B" are matched into the active session
"R" and both index entries point at it; the queue is empty. -/
def srvMatched : SrvState :=
  { queues := [], sessions := [(tttSessKey "R", sessAB)],
    userSessions := [(userKey "A", "R"), (userKey "B", "R")],
    resultScreens := [], timers := [] }

/-- Server state where "B" and "C" are already waiting in the
tic-tac-toe queue and nobody is in a session. -/
def srvQueueBC : SrvState :=
  { queues := [(tttQueueKey, [⟨"B", "b"⟩, ⟨"C", "c"⟩])], sessions := [],
    userSessions := [], resultScreens := [], timers := [] }

/-- Server state with one waiting player "B". -/
def srvQueueB : SrvState :=
  { queues := [(tttQueueKey, [⟨"B", "b"⟩])], sessions := [],
    userSessions := [], resultScreens := [], timers := [] }

/-- A room id in the `<gameType>-<timestamp>-<random>` format of
`BaseGame.createMatch`. -/
def roomT : String := "tictactoe-1-a"

/-- A finished tic-tac-toe session in room `roomT`, won by X ("A"). -/
def sessFinished : TSession :=
  { roomId := roomT, players := [("A", "alice"), ("B", "bob")], createdAt := 0,
    status := "finished",
    gameState := { ttt0 with winner := some TWinner.WX } }

/-- Server state after the match in `roomT` finished: both players are
on the result screen, the cleanup timer is scheduled, and both index
entries still point at the room. -/
def srvResult : SrvState :=
  { queues := [],
    sessions := [(gameTypeOf roomT ++ ":session:" ++ roomT, sessFinished)],
    userSessions := [(userKey "A", roomT), (userKey "B", roomT)],
    resultScreens := [(roomT, ["A", "B"])], timers := [roomT] }

/-- Server state holding the active session "R", used for the forfeit
witness. -/
def srvActiveR : SrvState :=
  { queues := [], sessions := [("tictactoe:session:" ++ "R", sessAB)],
    userSessions := [(userKey "A", "R"), (userKey "B", "R")],
    resultScreens := [], timers := [] }

/-- A connect-four session in room "connect-four-1-a" where it is
player "A"'s turn. -/
def c4sessA : C4Sess :=
  { roomId := "connect-four-1-a", gameType := "connect-four",
    players := [⟨"A", "a"⟩, ⟨"B", "b"⟩], gameState := c4start,
    status := "active", createdAt := 0 }

/-- Connect-four server state holding `c4sessA`. -/
def c4srvA : C4Srv :=
  { sessions := [("connect-four" ++ ":session:" ++ "connect-four-1-a", c4sessA)],
    resultScreens := [], timers := [] }

/-! ## Lemmas about the line scan -/

theorem scanLines_eq_some {b : TBoard} {p : Mark} :
    ∀ {L : List (Nat × Nat × Nat)}, scanLines b L = some p →
      ∃ t ∈ L, cell b t.1 = some p ∧ cell b t.2.1 = some p ∧ cell b t.2.2 = some p := by
  intro L
  induction L with
  | nil => intro h; simp [scanLines] at h
  | cons t rest ih =>
    intro h
    rw [scanLines] at h
    split at h
    next q hc =>
      split at h
      next hcond =>
        obtain rfl : q = p := by injection h
        exact ⟨t, List.mem_cons_self _ _, hc, hcond.1, hcond.2⟩
      next hcond =>
        obtain ⟨u, hu, hcs⟩ := ih h
        exact ⟨u, List.mem_cons_of_mem _ hu, hcs⟩
    next hc =>
      obtain ⟨u, hu, hcs⟩ := ih h
      exact ⟨u, List.mem_cons_of_mem _ hu, hcs⟩

theorem scanLines_isSome_of_mem {b : TBoard} {p : Mark} :
    ∀ {L : List (Nat × Nat × Nat)} {t : Nat × Nat × Nat}, t ∈ L →
      cell b t.1 = some p → cell b t.2.1 = some p → cell b t.2.2 = some p →
      (scanLines b L).isSome = true := by
  intro L
  induction L with
  | nil => intro t ht; exact absurd ht (List.not_mem_nil t)
  | cons u rest ih =>
    intro t ht h1 h2 h3
    rw [scanLines]
    split
    next q hc =>
      split
      next => rfl
      next hcond =>
        rcases List.mem_cons.mp ht with rfl | htail
        · rw [h1] at hc
          obtain rfl : p = q := by injection hc
          exact absurd ⟨h2, h3⟩ hcond
        · exact ih htail h1 h2 h3
    next hc =>
      rcases List.mem_cons.mp ht with rfl | htail
      · rw [h1] at hc; exact absurd hc (by simp)
      · exact ih htail h1 h2 h3

theorem winningLine_iff_mem_lines (b : TBoard) (p : Mark) :
    winningLine b p ↔
      ∃ t ∈ lines, cell b t.1 = some p ∧ cell b t.2.1 = some p ∧ cell b t.2.2 = some p := by
  constructor
  · intro h
    rcases h with h | h | h | h | h | h | h | h
    · exact ⟨(0, 1, 2), by decide, h⟩
    · exact ⟨(3, 4, 5), by decide, h⟩
    · exact ⟨(6, 7, 8), by decide, h⟩
    · exact ⟨(0, 3, 6), by decide, h⟩
    · exact ⟨(1, 4, 7), by decide, h⟩
    · exact ⟨(2, 5, 8), by decide, h⟩
    · exact ⟨(0, 4, 8), by decide, h⟩
    · exact ⟨(2, 4, 6), by decide, h⟩
  · rintro ⟨t, ht, h1, h2, h3⟩
    fin_cases ht
    · exact Or.inl ⟨h1, h2, h3⟩
    · exact Or.inr (Or.inl ⟨h1, h2, h3⟩)
    · exact Or.inr (Or.inr (Or.inl ⟨h1, h2, h3⟩))
    · exact Or.inr (Or.inr (Or.inr (Or.inl ⟨h1, h2, h3⟩)))
    · exact Or.inr (Or.inr (Or.inr (Or.inr (Or.inl ⟨h1, h2, h3⟩))))
    · exact Or.inr (Or.inr (Or.inr (Or.inr (Or.inr (Or.inl ⟨h1, h2, h3⟩)))))
    · exact Or.inr (Or.inr (Or.inr (Or.inr (Or.inr (Or.inr (Or.inl ⟨h1, h2, h3⟩))))))
    · exact Or.inr (Or.inr (Or.inr (Or.inr (Or.inr (Or.inr (Or.inr ⟨h1, h2, h3⟩))))))

theorem checkWinner_isSome_iff (b : TBoard) :
    (checkWinner b).isSome = true ↔ ∃ p, winningLine b p := by
  constructor
  · intro h
    obtain ⟨p, hp⟩ := Option.isSome_iff_exists.mp h
    obtain ⟨t, ht, hcs⟩ := scanLines_eq_some hp
    exact ⟨p, (winningLine_iff_mem_lines b p).mpr ⟨t, ht, hcs⟩⟩
  · rintro ⟨p, hp⟩
    obtain ⟨t, ht, h1, h2, h3⟩ := (winningLine_iff_mem_lines b p).mp hp
    exact scanLines_isSome_of_mem ht h1 h2 h3

theorem checkWinner_some_winningLine {b : TBoard} {p : Mark}
    (h : checkWinner b = some p) : winningLine b p := by
  obtain ⟨t, ht, hcs⟩ := scanLines_eq_some h
  exact (winningLine_iff_mem_lines b p).mpr ⟨t, ht, hcs⟩

theorem all_isSome_iff_cells {b : TBoard} (h9 : b.length = 9) :
    (b.all fun c => c.isSome) = true ↔ ∀ i, i < 9 → cell b i ≠ none := by
  rw [List.all_eq_true]
  constructor
  · intro h i hi
    have hlt : i < b.length := by rw [h9]; exact hi
    have hmem : b.get ⟨i, hlt⟩ ∈ b := List.get_mem b i hlt
    have := h _ hmem
    rw [cell, List.getD_eq_getElem?_getD, List.getElem?_eq_getElem hlt]
    simp only [Option.getD_some]
    intro hc
    rw [List.get_eq_getElem] at this
    rw [hc] at this
    simp at this
  · intro h x hx
    obtain ⟨i, hlt, rfl⟩ := List.mem_iff_getElem.mp hx
    have hi : i < 9 := by rw [← h9]; exact hlt
    have := h i hi
    rw [cell, List.getD_eq_getElem?_getD, List.getElem?_eq_getElem hlt] at this
    simp only [Option.getD_some] at this
    exact Option.isSome_iff_ne_none.mpr this

/-- The end check of the connect-four engine reads only the board and
the players list, so the extra fields written by `makeMove` do not
change its result. -/
theorem checkGameEndC4_congr (gs gs' : C4State) (hb : gs.board = gs'.board)
    (hp : gs.players = gs'.players) : checkGameEndC4 gs = checkGameEndC4 gs' := by
  unfold checkGameEndC4
  rw [hb, hp]

/-! ## Store lemmas -/

theorem lookupKV_setKV_self {α : Type} (m : List (String × α)) (k : String) (v : α) :
    lookupKV (setKV m k v) k = some v := by
  simp [setKV, lookupKV]

theorem lookupKV_delKV_self {α : Type} (m : List (String × α)) (k : String) :
    lookupKV (delKV m k) k = none := by
  induction m with
  | nil => rfl
  | cons kv rest ih =>
    rw [delKV]
    split_ifs with h
    · exact ih
    · rw [lookupKV, if_neg h]
      exact ih

theorem lookupKV_delKV_ne {α : Type} (m : List (String × α)) (k k' : String) (h : k' ≠ k) :
    lookupKV (delKV m k) k' = lookupKV m k' := by
  induction m with
  | nil => rfl
  | cons kv rest ih =>
    by_cases h1 : kv.1 = k
    · have h2 : kv.1 ≠ k' := fun hh => h (by rw [← hh, h1])
      rw [delKV, if_pos h1, ih, lookupKV, if_neg h2]
    · rw [delKV, if_neg h1]
      by_cases h2 : kv.1 = k'
      · rw [lookupKV, if_pos h2, lookupKV, if_pos h2]
      · rw [lookupKV, if_neg h2, lookupKV, if_neg h2, ih]

theorem lookupKV_setKV_ne {α : Type} (m : List (String × α)) (k k' : String) (v : α)
    (h : k' ≠ k) : lookupKV (setKV m k v) k' = lookupKV m k' := by
  rw [setKV, lookupKV, if_neg (fun hh => h hh.symm)]
  exact lookupKV_delKV_ne m k k' h

theorem userKey_injective {a b : String} (h : userKey a = userKey b) : a = b := by
  have hd := congrArg String.data h
  simp only [userKey, String.data_append] at hd
  rw [List.append_assoc, List.append_assoc] at hd
  exact String.ext (List.append_cancel_right (List.append_cancel_left hd))

theorem removeFirstUser_sublist (q : List QEntry) (userId : String) :
    List.Sublist (removeFirstUser q userId) q := by
  induction q with
  | nil => exact List.Sublist.refl _
  | cons e rest ih =>
    rw [removeFirstUser]
    split_ifs
    · exact List.sublist_cons_self e rest
    · exact List.Sublist.cons₂ e ih

theorem removeFirstUser_length (q : List QEntry) (userId : String) :
    q.length ≤ (removeFirstUser q userId).length + 1 := by
  induction q with
  | nil => simp [removeFirstUser]
  | cons e rest ih =>
    rw [removeFirstUser]
    split_ifs
    · simp
    · simp only [List.length_cons]
      omega

/-- If two players end up dequeued (the queue after the hard reset plus
the freshly pushed caller has at least two entries), `mmCore` creates
the session keyed by the fresh room id, seats the first dequeued player
as X, and reports `{matched:true}` — with no check that the caller is
one of the two. -/
theorem mmCore_spec (userId username roomId : String) (now : Nat) (s : SrvState)
    (p1 p2 : QEntry) (tail : List QEntry)
    (hq : getQueue s tttQueueKey ++ [⟨userId, username⟩] = p1 :: p2 :: tail) :
    (mmCore userId username roomId now s).1 = ⟨true, some roomId⟩
    ∧ (lookupKV (mmCore userId username roomId now s).2.sessions (tttSessKey roomId)).map
        (fun ss => ss.gameState.playerX) = some p1.userId := by
  simp only [mmCore]
  rw [hq]
  have hlen : 2 ≤ (p1 :: p2 :: tail).length := by
    simp only [List.length_cons]
    omega
  rw [if_pos hlen]
  exact ⟨rfl, by simp [lookupKV_setKV_self]⟩

/-- The membership tests of the leave handler can never hold on a
connect-four game state: both property reads yield `undefined`. -/
theorem jsPlayer_reads_undefined (gs : C4State) (userId : String) :
    ¬(jsPlayerX gs = some userId ∨ jsPlayerO gs = some userId) := by
  simp [jsPlayerX, jsPlayerO]

/-! ## Claim theorems -/

/-- Claim C3 counterexample: on a fresh legacy tic-tac-toe state it is
player X's turn, the game is undecided, and the cell index 9 is outside
0..8, yet the legacy validation accepts the move (`board[9]` is
`undefined`, which is falsy like an empty cell), contradicting the
claim that any out-of-range cell index is rejected. -/
theorem legacy_validation_accepts_out_of_range : legacyMoveCheck ttt0 "A" 9 = none := by
  decide

/-- Claim C3 (amended): the connect-four `validateMove` accepts exactly
when the game is undecided, it is the caller's turn, the column is
inside 0..6 and the column's top cell is empty; the legacy tic-tac-toe
validation accepts exactly when the targeted cell reads as empty (which
includes every out-of-range index), no outcome is decided, and it is
the caller's turn — it performs no bound check on the index. -/
theorem validateMove_characterization :
    (∀ (gs : C4State) (userId : String) (column : Int),
        validateMoveC4 gs userId column = none ↔
          (gs.finished = false ∧ playerIndex gs.players userId = (gs.currentPlayer : Int) ∧
           0 ≤ column ∧ column < 7 ∧ (gs.board.getD 0 []).get? column.toNat = some none))
    ∧ (∀ (gs : TState) (userId : String) (idx : Nat),
        legacyMoveCheck gs userId idx = none ↔
          (cell gs.board idx = none ∧ gs.winner = none ∧ isCurrentPlayer gs userId = true)) := by
  constructor
  · intro gs userId column
    unfold validateMoveC4
    split_ifs with h1 h2 h3 h4 <;>
      simp_all [not_or, Option.isSome_iff_ne_none] <;> omega
  · intro gs userId idx
    unfold legacyMoveCheck
    split_ifs with h1 h2 <;>
      simp_all [Option.isSome_iff_ne_none] <;> tauto

/-- Claim C4: on any 3x3 board, `checkWinner` reports a winner exactly
when some row, column, or diagonal is uniformly occupied by one
player's marker, the reported winner owns such a line, and the legacy
draw computation is true exactly when all 9 cells are occupied and no
such line exists. -/
theorem checkEnd_spec (b : TBoard) (h9 : b.length = 9) :
    ((checkWinner b).isSome = true ↔ ∃ p, winningLine b p)
    ∧ (∀ p, checkWinner b = some p → winningLine b p)
    ∧ (isDrawCalc b = true ↔ ((∀ i, i < 9 → cell b i ≠ none) ∧ ¬∃ p, winningLine b p)) := by
  refine ⟨checkWinner_isSome_iff b, fun p h => checkWinner_some_winningLine h, ?_⟩
  have hnone : (checkWinner b).isNone = true ↔ ¬∃ p, winningLine b p := by
    rw [← checkWinner_isSome_iff]
    cases checkWinner b <;> simp
  unfold isDrawCalc
  rw [Bool.and_eq_true, hnone, all_isSome_iff_cells h9]
  tauto

/-- Witness for C4 on a concrete full drawn board. -/
theorem checkEnd_spec_witness : isDrawCalc drawBoard = true ∧ drawBoard.length = 9 :=
  ⟨((checkEnd_spec drawBoard (by decide)).2.2).mpr (by decide), by decide⟩

/-- Claim C5 counterexample: a valid connect-four move that wins the
game leaves `currentPlayer` unchanged (the turn switch is in the else
branch of `makeMove`), contradicting the claim that every valid move
advances the turn to the other player. -/
theorem applyMove_turn_counterexample :
    validateMoveC4 c4win "A" 0 = none
    ∧ (makeMoveC4 c4win "A" 0).finished = true
    ∧ (makeMoveC4 c4win "A" 0).currentPlayer = c4win.currentPlayer := by
  decide

/-- Claim C5 (amended): both `applyMove` variants are pure
transformations that embed the terminal outcome of a game-ending move
in the same returned state, so no second call is needed; the turn
advances to the other player on every non-terminal move, while the
connect-four variant leaves `currentPlayer` unchanged on the terminal
move (the legacy tic-tac-toe variant always flips it). -/
theorem applyMove_outcome :
    (∀ (gs : C4State) (userId : String) (column : Int),
        validateMoveC4 gs userId column = none →
          ((makeMoveC4 gs userId column).finished
              = (checkGameEndC4 (makeMoveC4 gs userId column)).finished
           ∧ ((checkGameEndC4 (makeMoveC4 gs userId column)).finished = true →
                (makeMoveC4 gs userId column).winner
                    = (checkGameEndC4 (makeMoveC4 gs userId column)).winner
                ∧ (makeMoveC4 gs userId column).isDraw
                    = (checkGameEndC4 (makeMoveC4 gs userId column)).isDraw
                ∧ (makeMoveC4 gs userId column).currentPlayer = gs.currentPlayer)
           ∧ ((checkGameEndC4 (makeMoveC4 gs userId column)).finished = false →
                (makeMoveC4 gs userId column).currentPlayer = (gs.currentPlayer + 1) % 2
                ∧ (makeMoveC4 gs userId column).finished = false)))
    ∧ (∀ (gs : TState) (userId : String) (idx : Nat),
        legacyMoveCheck gs userId idx = none → idx < gs.board.length →
          ((legacyApplyMove gs idx).currentPlayer
              = (if gs.currentPlayer = Mark.X then Mark.O else Mark.X)
           ∧ ((legacyApplyMove gs idx).winner = none ↔
                (checkWinner (legacyApplyMove gs idx).board = none
                 ∧ (legacyApplyMove gs idx).board.all (fun c => c.isSome) = false)))) := by
  constructor
  · intro gs userId column hv
    obtain ⟨b, cp, ps, f, w, d⟩ := gs
    have hf : f = false := by
      cases f
      · rfl
      · simp [validateMoveC4] at hv
    subst hf
    simp only [makeMoveC4]
    set nb := dropPiece b column cp with hnb
    set E := checkGameEndC4 (⟨nb, cp, ps, false, w, d⟩ : C4State) with hE
    cases hfin : E.finished
    · have hYE : checkGameEndC4 (⟨nb, (cp + 1) % 2, ps, false, w, d⟩ : C4State) = E := by
        rw [hE]
        exact checkGameEndC4_congr _ _ rfl rfl
      simp only [hfin, Bool.false_eq_true, if_false]
      refine ⟨?_, ?_, ?_⟩
      · rw [hYE, hfin]
      · intro hcontra
        rw [hYE, hfin] at hcontra
        exact absurd hcontra (by simp)
      · intro _
        exact ⟨by trivial, by trivial⟩
    · have hXE : checkGameEndC4 (⟨nb, cp, ps, true, E.winner, E.isDraw⟩ : C4State) = E := by
        rw [hE]
        exact checkGameEndC4_congr _ _ rfl rfl
      simp only [hfin, if_true]
      refine ⟨?_, ?_, ?_⟩
      · rw [hXE, hfin]
      · intro _
        exact ⟨by rw [hXE], by rw [hXE], by trivial⟩
      · intro hcontra
        rw [hXE, hfin] at hcontra
        exact absurd hcontra (by simp)
  · intro gs userId idx hv hlen
    refine ⟨rfl, ?_⟩
    cases hw : checkWinner (gs.board.set idx (some gs.currentPlayer)) <;>
      cases hall : (gs.board.set idx (some gs.currentPlayer)).all (fun c => c.isSome) <;>
      simp [legacyApplyMove, markWinner, hw, hall]

/-- Witness for C5 on a concrete non-terminal connect-four move and a
concrete legacy tic-tac-toe move. -/
theorem applyMove_outcome_witness :
    ((makeMoveC4 c4start "A" 3).currentPlayer = (c4start.currentPlayer + 1) % 2)
    ∧ ((legacyApplyMove ttt0 0).currentPlayer
        = (if ttt0.currentPlayer = Mark.X then Mark.O else Mark.X)) := by
  constructor
  · exact ((applyMove_outcome.1 c4start "A" 3 (by decide)).2.2 (by decide)).1
  · exact (applyMove_outcome.2 ttt0 "A" 0 (by decide) (by decide)).1

/-- Claim C1: contrary to the claim, a second `requestMatch` by a user
who is matched into the Active session "R" does not return that room:
the hard reset deletes the user's index entry first, the defensive
re-check therefore finds nothing, the user is re-enqueued, and the call
returns `{matched:false}` — while the session itself stays in the
store.  This contradicts the unreachable "already in active session"
branch directly below the reset. -/
theorem requestMatch_repoll_bug :
    (handleMatchmaking "A" "alice" "R2" 0 srvMatched).1 = ⟨false, none⟩
    ∧ lookupKV (handleMatchmaking "A" "alice" "R2" 0 srvMatched).2.userSessions (userKey "A")
        = none
    ∧ lookupKV (handleMatchmaking "A" "alice" "R2" 0 srvMatched).2.sessions (tttSessKey "R")
        = some sessAB
    ∧ getQueue (handleMatchmaking "A" "alice" "R2" 0 srvMatched).2 tttQueueKey
        = [⟨"A", "alice"⟩] := by
  decide

/-- Claim C2 counterexample: with "B" and "C" already waiting, a
`requestMatch` by "A" dequeues "B" and "C", creates their session, and
still returns `{matched:true}` with that session's room id to "A", who
is not among the matched players — the claim requires
`{matched:false}` here. -/
theorem matchmaking_returns_foreign_room :
    (handleMatchmaking "A" "a" "R" 0 srvQueueBC).1 = ⟨true, some "R"⟩
    ∧ (lookupKV (handleMatchmaking "A" "a" "R" 0 srvQueueBC).2.sessions (tttSessKey "R")).map
        (fun ss => ss.gameState.playerX) = some "B"
    ∧ (lookupKV (handleMatchmaking "A" "a" "R" 0 srvQueueBC).2.sessions (tttSessKey "R")).map
        (fun ss => ss.gameState.playerO) = some "C"
    ∧ ("A" : String) ≠ "B" ∧ ("A" : String) ≠ "C" := by
  decide

/-- Claim C2 (amended): whenever `minPlayers` players are dequeued and
a session is created, the call returns `{matched:true}` with the new
room id unconditionally — whether or not the caller is among the two
dequeued players (the first dequeued player, not necessarily the
caller, becomes X). -/
theorem requestMatch_matched_unconditional :
    ∀ (userId username roomId : String) (now : Nat) (s : SrvState)
      (p1 : QEntry) (rest : List QEntry),
      removeFirstUser (getQueue s tttQueueKey) userId = p1 :: rest →
      (handleMatchmaking userId username roomId now s).1 = ⟨true, some roomId⟩
      ∧ (lookupKV (handleMatchmaking userId username roomId now s).2.sessions
            (tttSessKey roomId)).map (fun ss => ss.gameState.playerX) = some p1.userId := by
  intro userId username roomId now s p1 rest h
  unfold handleMatchmaking
  simp only [lookupKV_delKV_self]
  have hq : getQueue
      { s with
          queues := setKV s.queues tttQueueKey (removeFirstUser (getQueue s tttQueueKey) userId),
          userSessions := delKV s.userSessions (userKey userId) } tttQueueKey
      = p1 :: rest := by
    simpa [getQueue, lookupKV_setKV_self] using h
  rcases rest with _ | ⟨p2, rest2⟩
  · exact mmCore_spec userId username roomId now _ p1 ⟨userId, username⟩ [] (by rw [hq]; simp)
  · exact mmCore_spec userId username roomId now _ p1 p2 (rest2 ++ [⟨userId, username⟩])
      (by rw [hq]; simp)

/-- Witness for C2 (amended): one waiting player "B" plus the caller
"A" are dequeued and the call reports the match. -/
theorem requestMatch_matched_unconditional_witness :
    (handleMatchmaking "A" "a" "R" 0 srvQueueB).1 = ⟨true, some "R"⟩ :=
  (requestMatch_matched_unconditional "A" "a" "R" 0 srvQueueB ⟨"B", "b"⟩ [] (by decide)).1

/-- Claim C6 counterexample: "A" is one of the two players of the
active connect-four session (no winner set), yet the leave call
answers "User not in this game", changes no state and issues no stat
update — no forfeit occurs and no winner is declared, contradicting
the claim's universal "when the caller is one of the two players, the
other player is declared winner". -/
theorem leaveMatch_cfour_counterexample :
    (c4sessA.gameState.players.map (fun p => p.userId) = ["A", "B"]
     ∧ c4sessA.gameState.winner = none
     ∧ c4sessA.status = "active")
    ∧ c4LeaveEndpoint "connect-four" "connect-four-1-a" "A" c4srvA
        = (LeaveResp.notInGame, c4srvA, none) := by
  decide

/-- Claim C6 (amended): on a session of the tic-tac-toe shape (whose
game state carries `playerX`/`playerO`), a forfeit on a session whose
`winner` is already set is a no-op returning "Game already finished";
otherwise, when the caller is one of the two players, the other player
is declared winner, the session is persisted as "finished" with the
board untouched, and the stat increments record the forfeiter as the
loser and the opponent as the winner, regardless of the board.  On a
connect-four session the `playerX`/`playerO` reads yield `undefined`,
so every caller — the session's own players included — is answered
"User not in this game" and nothing changes (only the winner-set no-op
behaves as claimed). -/
theorem leaveMatch_spec :
    (∀ (gameType roomId userId : String) (s : SrvState) (game : TSession),
        lookupKV s.sessions (gameType ++ ":session:" ++ roomId) = some game →
        game.gameState.winner.isSome = true →
        leaveEndpoint gameType roomId userId s = (LeaveResp.alreadyFinished, s, none))
    ∧ (∀ (gameType roomId userId : String) (s : SrvState) (game : TSession),
        lookupKV s.sessions (gameType ++ ":session:" ++ roomId) = some game →
        game.gameState.winner = none →
        game.gameState.playerX ≠ game.gameState.playerO →
        (game.gameState.playerX = userId ∨ game.gameState.playerO = userId) →
        ((leaveEndpoint gameType roomId userId s).1
            = LeaveResp.left (if game.gameState.playerX = userId then game.gameState.playerO
                else game.gameState.playerX)
         ∧ lookupKV (leaveEndpoint gameType roomId userId s).2.1.sessions
              (gameType ++ ":session:" ++ roomId)
            = some { game with
                status := "finished",
                gameState := { game.gameState with
                  winner := some (if game.gameState.playerX = userId
                    then TWinner.WO else TWinner.WX) } }
         ∧ (leaveEndpoint gameType roomId userId s).2.2
            = some (if game.gameState.playerX = userId
                then (⟨1, 0, 1, 0⟩, ⟨1, 1, 0, 0⟩) else (⟨1, 1, 0, 0⟩, ⟨1, 0, 1, 0⟩))))
    ∧ (∀ (gameType roomId userId : String) (s : C4Srv) (game : C4Sess),
        lookupKV s.sessions (gameType ++ ":session:" ++ roomId) = some game →
        game.gameState.winner = none →
        c4LeaveEndpoint gameType roomId userId s = (LeaveResp.notInGame, s, none)) := by
  refine ⟨?_, ?_, ?_⟩
  · intro gameType roomId userId s game hg hw
    unfold leaveEndpoint
    simp only [hg, hw]
    rfl
  · intro gameType roomId userId s game hg hw hne huid
    unfold leaveEndpoint
    rcases huid with hx | ho
    · have hno : ¬(userId = game.gameState.playerO) := fun hh => hne (by rw [hx, hh])
      cases hrs : (lookupKV s.resultScreens roomId).isSome <;>
        simp [hg, hw, hx, hne, hno, hrs, updatePlayerStatsCalc, lookupKV_setKV_self]
    · have hx' : game.gameState.playerX ≠ userId := fun hh => hne (hh.trans ho.symm)
      cases hrs : (lookupKV s.resultScreens roomId).isSome <;>
        simp [hg, hw, ho, hx', hrs, updatePlayerStatsCalc, lookupKV_setKV_self]
  · intro gameType roomId userId s game hg hw
    unfold c4LeaveEndpoint
    simp [hg, hw]

/-- Witness for C6: "A" forfeits the active tic-tac-toe session "R"
("B" wins and the stat increments charge the loss to "A"), while the
same leave on the active connect-four session rejects its own player
"A". -/
theorem leaveMatch_spec_witness :
    ((leaveEndpoint "tictactoe" "R" "A" srvActiveR).1 = LeaveResp.left "B"
     ∧ (leaveEndpoint "tictactoe" "R" "A" srvActiveR).2.2
         = some (⟨1, 0, 1, 0⟩, ⟨1, 1, 0, 0⟩))
    ∧ c4LeaveEndpoint "connect-four" "connect-four-1-a" "A" c4srvA
        = (LeaveResp.notInGame, c4srvA, none) := by
  refine ⟨?_, leaveMatch_spec.2.2 "connect-four" "connect-four-1-a" "A" c4srvA c4sessA
    (by decide) (by decide)⟩
  obtain ⟨h1, _, h3⟩ :=
    leaveMatch_spec.2.1 "tictactoe" "R" "A" srvActiveR sessAB (by decide) (by decide) (by decide)
      (Or.inl (by decide))
  constructor
  · simpa [sessAB, ttt0] using h1
  · simpa [sessAB, ttt0] using h3

/-- Claim C7: when both players of a finished match are in the
residency set, the second `leaveResult` deletes the session, both index
entries, the tracking entry and the timer at once. -/
theorem leaveResult_both_reclaims :
    ∀ (s : SrvState) (roomId A B : String) (game : TSession),
      A ≠ B →
      lookupKV s.resultScreens roomId = some [A, B] →
      lookupKV s.sessions (gameTypeOf roomId ++ ":session:" ++ roomId) = some game →
      game.gameState.playerX = A →
      game.gameState.playerO = B →
      (lookupKV ((leaveResult roomId B (leaveResult roomId A s).2).2).sessions
          (gameTypeOf roomId ++ ":session:" ++ roomId) = none
       ∧ lookupKV ((leaveResult roomId B (leaveResult roomId A s).2).2).userSessions
          (userKey A) = none
       ∧ lookupKV ((leaveResult roomId B (leaveResult roomId A s).2).2).userSessions
          (userKey B) = none
       ∧ lookupKV ((leaveResult roomId B (leaveResult roomId A s).2).2).resultScreens
          roomId = none
       ∧ roomId ∉ ((leaveResult roomId B (leaveResult roomId A s).2).2).timers) := by
  intro s roomId A B game hAB hrs hsess hpx hpo
  have hBA : B ≠ A := fun hh => hAB hh.symm
  have hkAB : userKey A ≠ userKey B := fun hh => hAB (userKey_injective hh)
  have hfilA : List.filter (fun u => decide (u ≠ A)) [A, B] = [B] := by
    simp [hBA]
  have step1 : leaveResult roomId A s
      = (SimpleResp.ok,
         { s with
            resultScreens := setKV s.resultScreens roomId [B],
            userSessions := delKV s.userSessions (userKey A) }) := by
    unfold leaveResult
    simp only [hrs, hfilA]
    rfl
  have step2 : leaveResult roomId B
      { s with
          resultScreens := setKV s.resultScreens roomId [B],
          userSessions := delKV s.userSessions (userKey A) }
      = (SimpleResp.ok, cleanupResultScreen roomId
          { s with
              resultScreens := setKV (setKV s.resultScreens roomId [B]) roomId [],
              userSessions := delKV (delKV s.userSessions (userKey A)) (userKey B) }) := by
    unfold leaveResult
    simp only [lookupKV_setKV_self]
    have hfilB : List.filter (fun u => decide (u ≠ B)) [B] = [] := by simp
    simp only [hfilB]
    rfl
  have step3 : cleanupResultScreen roomId
      { s with
          resultScreens := setKV (setKV s.resultScreens roomId [B]) roomId [],
          userSessions := delKV (delKV s.userSessions (userKey A)) (userKey B) }
      = { s with
            sessions := delKV s.sessions (gameTypeOf roomId ++ ":session:" ++ roomId),
            userSessions :=
              delKV (delKV (delKV (delKV s.userSessions (userKey A)) (userKey B))
                (userKey A)) (userKey B),
            queues := setKV s.queues (gameTypeOf roomId ++ ":queue")
              (removeUsersFromQueue (getQueue s (gameTypeOf roomId ++ ":queue")) A B),
            resultScreens := delKV (setKV (setKV s.resultScreens roomId [B]) roomId []) roomId,
            timers := s.timers.filter (fun t => decide (t ≠ roomId)) } := by
    unfold cleanupResultScreen
    simp only [lookupKV_setKV_self, hsess, hpx, hpo]
    rfl
  rw [step1, step2, step3]
  refine ⟨lookupKV_delKV_self _ _, ?_, ?_, lookupKV_delKV_self _ _, ?_⟩
  · rw [lookupKV_delKV_ne _ _ _ hkAB, lookupKV_delKV_self]
  · rw [lookupKV_delKV_self]
  · intro hm
    have := (List.mem_filter.mp hm).2
    simp at this

/-- Witness for C7 on the concrete finished room `roomT`. -/
theorem leaveResult_both_reclaims_witness :
    lookupKV ((leaveResult roomT "B" (leaveResult roomT "A" srvResult).2).2).sessions
        (gameTypeOf roomT ++ ":session:" ++ roomT) = none
    ∧ lookupKV ((leaveResult roomT "B" (leaveResult roomT "A" srvResult).2).2).userSessions
        (userKey "A") = none
    ∧ lookupKV ((leaveResult roomT "B" (leaveResult roomT "A" srvResult).2).2).userSessions
        (userKey "B") = none := by
  obtain ⟨h1, h2, h3, _, _⟩ :=
    leaveResult_both_reclaims srvResult roomT "A" "B" sessFinished (by decide) (by decide)
      (by decide) (by decide) (by decide)
  exact ⟨h1, h2, h3⟩

/-- Claim C8: a reclaim of a room with no residency tracking entry is a
no-op: the state is returned unchanged. -/
theorem reclaim_idempotent :
    ∀ (s : SrvState) (roomId : String),
      lookupKV s.resultScreens roomId = none → cleanupResultScreen roomId s = s := by
  intro s roomId h
  unfold cleanupResultScreen
  simp only [h]

/-- Witness for C8 on a concrete untracked room. -/
theorem reclaim_idempotent_witness :
    cleanupResultScreen "gone-1-b" srvMatched = srvMatched :=
  reclaim_idempotent srvMatched "gone-1-b" (by decide)

/-- Claim C9: a move the engine rejects leaves the whole server state —
in particular the stored session and its `gameState` — unchanged: the
endpoint returns the rejection before applying or persisting anything. -/
theorem rejectedMove_frame :
    ∀ (gameType roomId userId : String) (column : Int) (s : C4Srv) (game : C4Sess)
      (reason : String),
      lookupKV s.sessions (gameType ++ ":session:" ++ roomId) = some game →
      validateMoveC4 game.gameState userId column = some reason →
      c4MoveEndpoint gameType roomId userId column s = (MoveResp.rejected reason, s) := by
  intro gameType roomId userId column s game reason hg hv
  unfold c4MoveEndpoint
  simp only [hg, hv]

/-- Witness for C9: "B" moves out of turn and is rejected with
"Not your turn"; the state is unchanged. -/
theorem rejectedMove_frame_witness :
    c4MoveEndpoint "connect-four" "connect-four-1-a" "B" 3 c4srvA
      = (MoveResp.rejected "Not your turn", c4srvA) :=
  rejectedMove_frame "connect-four" "connect-four-1-a" "B" 3 c4srvA c4sessA "Not your turn"
    (by decide) (by decide)

/-- Claim C10: `cancelMatchmaking` unconditionally deletes the caller's
index entry — also when it points at a live Active session — removes at
most one queue entry of the caller, and leaves the session store (and
so the session itself) untouched. -/
theorem cancel_severs_index :
    ∀ (gameType userId : String) (s : SrvState) (roomId : String) (sess : TSession),
      lookupKV s.userSessions (userKey userId) = some roomId →
      lookupKV s.sessions (tttSessKey roomId) = some sess →
      sess.status = "active" →
      (lookupKV (cancelMatchmaking gameType userId s).userSessions (userKey userId) = none
       ∧ lookupKV (cancelMatchmaking gameType userId s).sessions (tttSessKey roomId) = some sess
       ∧ getQueue (cancelMatchmaking gameType userId s) (gameType ++ ":queue")
           = removeFirstUser (getQueue s (gameType ++ ":queue")) userId
       ∧ List.Sublist (removeFirstUser (getQueue s (gameType ++ ":queue")) userId)
           (getQueue s (gameType ++ ":queue"))
       ∧ (getQueue s (gameType ++ ":queue")).length
           ≤ (removeFirstUser (getQueue s (gameType ++ ":queue")) userId).length + 1) := by
  intro gameType userId s roomId sess hus hsess hact
  refine ⟨lookupKV_delKV_self _ _, hsess, ?_, removeFirstUser_sublist _ _,
    removeFirstUser_length _ _⟩
  simp [cancelMatchmaking, getQueue, lookupKV_setKV_self]

/-- Witness for C10: cancelling while matched into the live session "R"
severs the index entry while the session remains. -/
theorem cancel_severs_index_witness :
    lookupKV (cancelMatchmaking "tictactoe" "A" srvMatched).userSessions (userKey "A") = none
    ∧ lookupKV (cancelMatchmaking "tictactoe" "A" srvMatched).sessions (tttSessKey "R")
        = some sessAB := by
  obtain ⟨h1, h2, _⟩ :=
    cancel_severs_index "tictactoe" "A" srvMatched "R" sessAB (by decide) (by decide) (by decide)
  exact ⟨h1, h2⟩

end PUGG
